import Mathlib

/-!
# Verification of the Synapse disruption-resolution core

Shallow embedding of the disruption-resolution pipeline of the `synapse`
repository: the profit optimizer (`core/optimizer.py`), the scenario
classifier and orchestrator (`core/agent.py`), the TTL cache
(`utils/cache.py`), and the dashboard's input guard (`app.py`).

Modelling conventions:
* Python floats are modelled as `ℚ` (all arithmetic in these functions is
  exact on the inputs the claims quantify over; no claim depends on
  floating-point rounding).
* Python dicts that always carry the same fields are modelled as structures.
* Randomness (`random.uniform`, `np.random.*`) and the LLM collaborator are
  modelled as explicit parameters: every theorem holds for all values of
  those parameters, which is exactly what the source guarantees.
* Wall-clock time (`time.time()`) is an explicit `ℚ` parameter threaded
  through the stateful operations.
-/

namespace Synapse

/-! ## core/optimizer.py -/

/-- An action inside a candidate solution: the dict
`\x7b'type': ..., 'description': ...\x7d` of `optimizer.py`. -/
structure Action where
  kind : String
  description : String
deriving DecidableEq, Repr

/-- The fixed per-action-type cost table `action_costs` of
`_calculate_operational_costs` (optimizer.py lines 281-292). -/
def actionCostTable : List (String × ℚ) :=
  [("compensation", 15), ("priority_status", 5), ("personal_apology", 8),
   ("future_discount", 20), ("loyalty_points", 12), ("quality_assurance", 6),
   ("incentive_bonus", 25), ("training_opportunity", 15),
   ("technology_upgrade", 30), ("process_improvement", 18)]

/-- The loop of `_calculate_operational_costs`: starting from 0, each action
whose `type` is a key of `action_costs` adds its fee (`if action_type in
action_costs: total_action_cost += action_costs[action_type]`). -/
def totalActionCost (actions : List Action) : ℚ :=
  actions.foldl
    (fun acc a =>
      match actionCostTable.lookup a.kind with
      | some c => acc + c
      | none => acc)
    0

/-- `_calculate_operational_costs(solution, scenario)` (optimizer.py lines
276-303): `base_cost + (total_action_cost * delivery_multiplier)` where
`base_cost = 10.0` and `delivery_multiplier = max(1, scenario.affected_deliveries)`. -/
def calculate_operational_costs (actions : List Action) (affected : ℕ) : ℚ :=
  let base_cost : ℚ := 10
  let delivery_multiplier : ℕ := max 1 affected
  base_cost + totalActionCost actions * delivery_multiplier

/-- The spec's formula for the per-action cost sum: each action contributes
its flat fee from the fixed table, unknown action kinds contribute zero. -/
def specActionSum (actions : List Action) : ℚ :=
  (actions.map (fun a =>
    match actionCostTable.lookup a.kind with
    | some c => c
    | none => 0)).sum

/-- The ROI analysis dict returned by `_calculate_roi` (optimizer.py lines
219-252).  `payback_days = none` models the `float('inf')` sentinel. -/
structure ROIAnalysis where
  immediate_profit : ℚ
  long_term_profit : ℚ
  operational_costs : ℚ
  brand_impact : ℚ
  customer_ltv_impact : ℚ
  total_profit : ℚ
  total_cost : ℚ
  roi_percentage : ℚ
  payback_days : Option ℚ
deriving DecidableEq, Repr

/-- `_calculate_payback_period(total_cost, monthly_profit)` (optimizer.py
lines 324-332); `none` models `float('inf')`.  (The inner `else` branch is
unreachable since `monthly_profit > 0` forces `daily_profit > 0`, but it is
kept: `min(float('inf'), 365)` would evaluate to `365`.) -/
def calculate_payback_period (total_cost monthly_profit : ℚ) : Option ℚ :=
  if monthly_profit ≤ 0 then none
  else
    let daily_profit := monthly_profit / 30
    some (if 0 < daily_profit then min (total_cost / daily_profit) 365 else 365)

/-- `_calculate_roi(solution, scenario, context)` (optimizer.py lines
219-252).  The random draws made by `_get_customer_ltv_impact` and
`_assess_brand_impact` are passed in as `customer_ltv` and `brand_impact`;
`predicted_profit` and `actions` are the fields of the candidate dict and
`affected` is `scenario.affected_deliveries`. -/
def calculate_roi (predicted_profit : ℚ) (actions : List Action) (affected : ℕ)
    (customer_ltv brand_impact : ℚ) : ROIAnalysis :=
  let operational_costs := calculate_operational_costs actions affected
  let immediate_profit := predicted_profit
  let long_term_profit := customer_ltv + brand_impact
  let total_profit := immediate_profit + long_term_profit
  let total_cost := operational_costs
  let roi := if 0 < total_cost then (total_profit - total_cost) / max total_cost 1
             else total_profit
  { immediate_profit := immediate_profit
    long_term_profit := long_term_profit
    operational_costs := operational_costs
    brand_impact := brand_impact
    customer_ltv_impact := customer_ltv
    total_profit := total_profit
    total_cost := total_cost
    roi_percentage := roi * 100
    payback_days := calculate_payback_period total_cost long_term_profit }

/-- The fold of `totalActionCost` computes the same per-action sum as a
`map`/`sum`, shifted by the accumulator. -/
theorem totalActionCost_eq_specActionSum (actions : List Action) :
    totalActionCost actions = specActionSum actions := by
  suffices h : ∀ (l : List Action) (acc : ℚ),
      l.foldl
        (fun acc a =>
          match actionCostTable.lookup a.kind with
          | some c => acc + c
          | none => acc)
        acc = acc + specActionSum l by
    simpa [totalActionCost] using h actions 0
  intro l
  induction l with
  | nil => intro acc; simp [specActionSum]
  | cons a l ih =>
    intro acc
    simp only [List.foldl_cons, ih, specActionSum, List.map_cons, List.sum_cons]
    cases actionCostTable.lookup a.kind
    · simp [specActionSum]
    · simp [specActionSum]; ring

/-! ### The Selector (`_select_best_solution`, optimizer.py lines 334-346) -/

/-- An evaluated candidate: the candidate dict after `optimize` has attached
`roi_analysis` (optimizer.py lines 43-46).  Every candidate produced by
`_generate_solution_candidates` carries exactly these keys, so the
`x.get('roi_analysis', \x7b\x7d).get('roi_percentage', 0)` sort key always
finds the field. -/
structure EvalCandidate where
  approach : String
  actions : List Action
  predicted_profit : ℚ
  confidence : ℚ
  execution_time : ℚ
  roi_analysis : ROIAnalysis
deriving Repr

/-- The sort key of `_select_best_solution`:
`x.get('roi_analysis', \x7b\x7d).get('roi_percentage', 0)`. -/
def roiKey (c : EvalCandidate) : ℚ := c.roi_analysis.roi_percentage

/-- Stable descending insertion: `x` (an element earlier in the original
list than everything already in the sorted tail) goes in front of the first
element whose key is `≤` its own.  An insertion sort built from this is a
stable descending sort, and a stable sort by a fixed key is unique as a
function, so `sortRoiDesc` below is extensionally
`sorted(candidates, key=..., reverse=True)` of optimizer.py line 340. -/
def insertRoiDesc (x : EvalCandidate) : List EvalCandidate → List EvalCandidate
  | [] => [x]
  | y :: ys => if roiKey y ≤ roiKey x then x :: y :: ys else y :: insertRoiDesc x ys

/-- Stable descending sort by `roiKey` (Python `sorted` with `reverse=True`). -/
def sortRoiDesc : List EvalCandidate → List EvalCandidate
  | [] => []
  | x :: xs => insertRoiDesc x (sortRoiDesc xs)

/-- Result of `_select_best_solution`: `emptyDict` models the `return \x7b\x7d`
taken when the candidate list is empty (the source raises no exception
there); `selected c` models `return sorted_candidates[0]`. -/
inductive SelectResult where
  | emptyDict : SelectResult
  | selected : EvalCandidate → SelectResult
deriving Repr

/-- `_select_best_solution(candidates)` (optimizer.py lines 334-346):
`if not candidates: return \x7b\x7d`, else sort descending by ROI percentage
and return the first element.  (`sorted_candidates[0]` on a non-empty list is
modelled by `head?`; the `none` arm is unreachable.) -/
def select_best_solution (cs : List EvalCandidate) : SelectResult :=
  if cs.isEmpty then SelectResult.emptyDict
  else
    match (sortRoiDesc cs).head? with
    | some c => SelectResult.selected c
    | none => SelectResult.emptyDict

/-- The first element of the list attaining the maximum `roiKey`:
`firstMaxRoi (x :: xs)` keeps the earlier element on ties. -/
def firstMaxRoi : List EvalCandidate → Option EvalCandidate
  | [] => none
  | x :: xs =>
    match firstMaxRoi xs with
    | none => some x
    | some m => some (if roiKey x < roiKey m then m else x)

theorem insertRoiDesc_head (x : EvalCandidate) (l : List EvalCandidate) :
    (insertRoiDesc x l).head? =
      some (match l.head? with
            | none => x
            | some y => if roiKey y ≤ roiKey x then x else y) := by
  cases l with
  | nil => rfl
  | cons y ys =>
    by_cases h : roiKey y ≤ roiKey x <;> simp [insertRoiDesc, h]

theorem sortRoiDesc_head (cs : List EvalCandidate) :
    (sortRoiDesc cs).head? = firstMaxRoi cs := by
  induction cs with
  | nil => rfl
  | cons x xs ih =>
    rw [sortRoiDesc, insertRoiDesc_head, firstMaxRoi, ← ih]
    cases hh : (sortRoiDesc xs).head? with
    | none => rfl
    | some m =>
      rcases le_or_lt (roiKey m) (roiKey x) with h | h
      · simp [h, not_lt.mpr h]
      · simp [h, not_le.mpr h]

theorem firstMaxRoi_spec (cs : List EvalCandidate) (h : cs ≠ []) :
    ∃ i, ∃ hi : i < cs.length,
      firstMaxRoi cs = some (cs.get ⟨i, hi⟩) ∧
      (∀ j (hj : j < cs.length), roiKey (cs.get ⟨j, hj⟩) ≤ roiKey (cs.get ⟨i, hi⟩)) ∧
      (∀ j (hj : j < cs.length), j < i → roiKey (cs.get ⟨j, hj⟩) < roiKey (cs.get ⟨i, hi⟩)) := by
  induction cs with
  | nil => exact absurd rfl h
  | cons x xs ih =>
    cases hxs : xs with
    | nil =>
      refine ⟨0, by simp, ?_, ?_, ?_⟩
      · rfl
      · intro j hj
        cases j with
        | zero => exact le_refl _
        | succ j' => simp at hj
      · intro j hj hj0
        omega
    | cons b t =>
      subst hxs
      obtain ⟨i, hi, heq, hmax, hstrict⟩ := ih (by simp)
      have hunf : firstMaxRoi (x :: b :: t) =
          match firstMaxRoi (b :: t) with
          | none => some x
          | some m => some (if roiKey x < roiKey m then m else x) := rfl
      by_cases hx : roiKey x < roiKey ((b :: t).get ⟨i, hi⟩)
      · refine ⟨i + 1, by simpa using Nat.succ_lt_succ hi, ?_, ?_, ?_⟩
        · rw [hunf, heq]
          simp only [if_pos hx]
          rfl
        · intro j hj
          cases j with
          | zero => exact le_of_lt hx
          | succ j' => exact hmax j' (by simpa using Nat.lt_of_succ_lt_succ hj)
        · intro j hj hji
          cases j with
          | zero => exact hx
          | succ j' =>
            exact hstrict j' (by simpa using Nat.lt_of_succ_lt_succ hj)
              (Nat.lt_of_succ_lt_succ hji)
      · refine ⟨0, by simp, ?_, ?_, ?_⟩
        · rw [hunf, heq]
          simp only [if_neg hx]
          rfl
        · intro j hj
          cases j with
          | zero => exact le_refl _
          | succ j' =>
            exact le_trans (hmax j' (by simpa using Nat.lt_of_succ_lt_succ hj))
              (not_lt.mp hx)
        · intro j hj hj0
          omega

theorem insertRoiDesc_ne_nil (x : EvalCandidate) (l : List EvalCandidate) :
    insertRoiDesc x l ≠ [] := by
  cases l with
  | nil => simp [insertRoiDesc]
  | cons y ys =>
    by_cases h : roiKey y ≤ roiKey x <;> simp [insertRoiDesc, h]

/-- A sample evaluated candidate with a given approach tag and ROI
percentage (the other fields play no role in selection). -/
def sampleCandidate (approach : String) (roi : ℚ) : EvalCandidate :=
  { approach := approach
    actions := [⟨"investigate", "Investigate the issue"⟩]
    predicted_profit := 0
    confidence := 7/10
    execution_time := 3/10
    roi_analysis :=
      { immediate_profit := 0, long_term_profit := 0, operational_costs := 10
        brand_impact := 0, customer_ltv_impact := 0, total_profit := 0
        total_cost := 10, roi_percentage := roi, payback_days := none } }

/-- The spec's ROI-selection test list: percentages 12.0, 45.5, 45.5 with a
tie for the maximum. -/
def tieCandidates : List EvalCandidate :=
  [sampleCandidate "standard" 12,
   sampleCandidate "proactive_rerouting" (91/2),
   sampleCandidate "fleet_optimization" (91/2)]

/-! ## utils/cache.py — `CacheManager`

The source keeps three dicts (`cache`, `expiry_times`, `access_times`) whose
key sets move in lockstep: `set` writes all three, `delete` removes from all
three, and no other operation changes a key set.  The model therefore keeps
one map from key to a combined entry.  `_serialize_value`/`_deserialize_value`
are `json.dumps`/`json.loads`, which round-trip the JSON-representable dicts
this program stores; the model treats the stored value as the value itself.
Wall-clock `time.time()` is the explicit `now : ℚ` argument. -/

/-- One cache entry: value, `expiry_times[key]` (`none` = never expires,
from `ttl <= 0`), and `access_times[key]`. -/
structure CacheEntry (α : Type) where
  value : α
  expiry : Option ℚ
  accessed : ℚ
deriving Repr

/-- The `CacheManager` state: the keyed entries plus the `stats` counters. -/
structure CacheState (α : Type) where
  store : String → Option (CacheEntry α)
  hits : ℕ
  misses : ℕ
  sets : ℕ
  deletes : ℕ

/-- `CacheManager.__init__`: empty cache, all counters zero. -/
def emptyCache (α : Type) : CacheState α :=
  { store := fun _ => none, hits := 0, misses := 0, sets := 0, deletes := 0 }

/-- `CacheManager.set(key, value, ttl)` (cache.py lines 29-64): store the
entry, set `expiry_times[key] = time.time() + ttl` when `ttl > 0` and `None`
otherwise, record the access time, bump `sets`.  (Serialization of the dicts
this program stores cannot fail, so the `return True` path is the only one.) -/
def cacheSet {α : Type} (k : String) (v : α) (ttl : ℤ) (now : ℚ)
    (st : CacheState α) : CacheState α :=
  { st with
    store := fun q =>
      if q = k then some ⟨v, if 0 < ttl then some (now + ttl) else none, now⟩
      else st.store q
    sets := st.sets + 1 }

/-- `CacheManager._is_expired(key)` (cache.py lines 292-301): `False` for a
missing key or a `None` expiry, else `time.time() > expiry_time`. -/
def is_expired {α : Type} (st : CacheState α) (k : String) (now : ℚ) : Bool :=
  match st.store k with
  | none => false
  | some e =>
    match e.expiry with
    | none => false
    | some t => decide (t < now)

/-- `CacheManager.delete(key)` (cache.py lines 105-126): remove the entry and
bump `deletes` when present, else return `False`. -/
def cacheDelete {α : Type} (k : String) (st : CacheState α) :
    Bool × CacheState α :=
  match st.store k with
  | some _ =>
    (true,
     { st with
       store := fun q => if q = k then none else st.store q
       deletes := st.deletes + 1 })
  | none => (false, st)

/-- `CacheManager.get(key)` (cache.py lines 66-103): a missing key is a miss;
an expired key is deleted and counted as a miss; otherwise the access time is
refreshed, `hits` is bumped and the value returned. -/
def cacheGet {α : Type} (k : String) (now : ℚ) (st : CacheState α) :
    Option α × CacheState α :=
  match st.store k with
  | none => (none, { st with misses := st.misses + 1 })
  | some e =>
    if is_expired st k now then
      let st1 := (cacheDelete k st).2
      (none, { st1 with misses := st1.misses + 1 })
    else
      (some e.value,
       { st with
         store := fun q =>
           if q = k then some { e with accessed := now } else st.store q
         hits := st.hits + 1 })

/-- Python `int(...)` on a rational: truncation toward zero. -/
def pyInt (q : ℚ) : ℤ := if q < 0 then -⌊-q⌋ else ⌊q⌋

/-- `CacheManager.ttl(key)` (cache.py lines 168-185): `-2` for a missing key,
`-1` for a never-expiring key, else `max(0, int(expiry - time.time()))`.
No deletion and no statistics update happen on this path, so the state is
returned unchanged. -/
def cacheTtl {α : Type} (k : String) (now : ℚ) (st : CacheState α) :
    ℤ × CacheState α :=
  match st.store k with
  | none => (-2, st)
  | some e =>
    match e.expiry with
    | none => (-1, st)
    | some t => (max 0 (pyInt (t - now)), st)

/-! ## core/agent.py — scenario classification and sizing -/

/-- Python's `needle in haystack` on character lists: `needle` occurs as a
contiguous substring. -/
def containsSub (needle : List Char) : List Char → Bool
  | [] => needle.isEmpty
  | c :: cs => needle.isPrefixOf (c :: cs) || containsSub needle cs

/-- Python `str.lower()` (the keyword tables are ASCII, where Python and
Lean lowercasing agree). -/
def pyLower (s : String) : String := String.mk (s.toList.map Char.toLower)

/-- Python `needle in haystack` on strings. -/
def pyIn (needle hay : String) : Bool := containsSub needle.toList hay.toList

/-- `_classify_scenario(input_text)` (agent.py lines 172-185): keyword
categories checked in a fixed order — traffic, customer, driver,
environmental — first match wins, no match gives `general_disruption`. -/
def classify_scenario (input_text : String) : String :=
  let text_lower := pyLower input_text
  if ["traffic", "accident", "jam", "road"].any (fun w => pyIn w text_lower) then
    "traffic_disruption"
  else if ["complaint", "angry", "cold", "food"].any (fun w => pyIn w text_lower) then
    "customer_issue"
  else if ["driver", "voice", "stress"].any (fun w => pyIn w text_lower) then
    "driver_wellbeing"
  else if ["weather", "rain", "storm"].any (fun w => pyIn w text_lower) then
    "environmental"
  else
    "general_disruption"

/-- The claim-side reading of "the text contains a keyword of this
category": some keyword of the list occurs in the lowercased text. -/
def mentionsAny (ws : List String) (text : String) : Bool :=
  ws.any (fun w => pyIn w (pyLower text))

/-- The first maximal run of decimal digits in the text, as a number:
`re.findall(r'\d+', input_text)` followed by `int(numbers[0])`. -/
def firstDigitRun : List Char → Option (List Char)
  | [] => none
  | c :: cs =>
    if c.isDigit then some (c :: cs.takeWhile Char.isDigit)
    else firstDigitRun cs

/-- Decimal value of a digit run (`int` applied to the matched string). -/
def digitsToNat (l : List Char) : ℕ :=
  l.foldl (fun n c => 10 * n + (c.toNat - 48)) 0

/-- The first explicit integer literal of a text, when present. -/
def firstIntLit (s : String) : Option ℕ :=
  (firstDigitRun s.toList).map digitsToNat

/-- `_estimate_affected_deliveries(input_text)` (agent.py lines 205-222).
`randint lo hi` stands for `np.random.randint(lo, hi)`, a draw from the
half-open range `[lo, hi)`. -/
def estimate_affected_deliveries (input_text : String)
    (randint : ℕ → ℕ → ℕ) : ℕ :=
  let text_lower := pyLower input_text
  match firstIntLit input_text with
  | some n => n
  | none =>
    if ["major", "highway", "multiple"].any (fun w => pyIn w text_lower) then
      randint 3 8
    else if ["single", "one", "individual"].any (fun w => pyIn w text_lower) then
      1
    else
      randint 1 4

/-! ## core/agent.py — the orchestrator, and app.py — the input guard -/

/-- An interactive follow-up option dict
(`\x7btext, action, description\x7d`). -/
structure InteractiveOption where
  text : String
  action : String
  description : String
deriving DecidableEq, Repr

/-- The `Solution` dataclass (agent.py lines 50-74).  `to_dict`, the JSON
round-trip through the cache, and `Solution(**d)` compose to the identity on
these records, so the cache is modelled as storing the record itself. -/
structure Solution where
  id : String
  scenario_id : String
  actions : List Action
  predicted_profit : ℚ
  confidence : ℚ
  reasoning : String
  execution_time : ℚ
  cache_hit : Bool
  interactive_options : List InteractiveOption
deriving DecidableEq, Repr

/-- The stochastic and collaborator-dependent inputs of the miss path of
`solve_disruption`: the candidate dict chosen by `profit_optimizer.optimize`
(whose profit figures come from random draws), the reasoning text and the
interactive options (from the LLM, or its fixed fallback), and the
`int(time.time())` stamp in the solution id.  Every theorem below holds for
every value of this record. -/
structure ComputeOracle where
  opt_actions : List Action
  opt_predicted_profit : ℚ
  opt_confidence : ℚ
  reasoning : String
  interactive_options : List InteractiveOption
  stamp : ℤ

/-- `_execute_with_reasoning(scenario, solution, context)` (agent.py lines
239-321): builds the returned Solution from the optimizer's chosen
candidate dict (`.get('actions', [])`, `.get('predicted_profit', 0.0)`,
`.get('confidence', 0.8)`) and the collaborator's reasoning/options. -/
def execute_with_reasoning (scen_id : String) (o : ComputeOracle) : Solution :=
  { id := "sol_" ++ scen_id ++ "_" ++ toString o.stamp
    scenario_id := scen_id
    actions := o.opt_actions
    predicted_profit := o.opt_predicted_profit
    confidence := o.opt_confidence
    reasoning := o.reasoning
    execution_time := 0
    cache_hit := false
    interactive_options := o.interactive_options }

/-- `solve_disruption(scenario_input)` (agent.py lines 116-150).  `fp` models
the scenario fingerprint `hashlib.md5(text.encode()).hexdigest()[:8]`: an
arbitrary deterministic function of the text (no property proved here
depends on its values).  `t_start` is the wall clock at entry and `t_end`
at return: the cache probe happens at `t_start`, the store of a freshly
computed solution at `t_end`.  A cached dict is always a non-empty
`Solution.to_dict`, so Python's `if cached_data:` is the `some` test.  The
`_update_metrics` call touches neither the cache nor the returned Solution
and is outside the claims, so it is not modelled. -/
def solve_disruption (fp : String → String) (st : CacheState Solution)
    (text : String) (t_start t_end : ℚ) (o : ComputeOracle) :
    Solution × CacheState Solution :=
  let key := "scenario_" ++ fp text
  match cacheGet key t_start st with
  | (some d, st1) =>
    ({ d with cache_hit := true, execution_time := t_end - t_start }, st1)
  | (none, st1) =>
    let final0 := execute_with_reasoning (fp text) o
    let final := { final0 with execution_time := t_end - t_start }
    (final, cacheSet key final 3600 t_end st1)

/-- The whitespace characters Python's `str.strip()` removes (ASCII). -/
def pyWhitespace (c : Char) : Bool :=
  c = ' ' || c = '\t' || c = '\n' || c = '\r' || c = '\x0b' || c = '\x0c'

/-- Python `str.strip()`: drop whitespace from both ends. -/
def pyStrip (s : String) : String :=
  String.mk (((s.toList.dropWhile pyWhitespace).reverse.dropWhile
    pyWhitespace).reverse)

/-- What the dashboard's solve button produces: a processed solution, or the
`st.error("⚠️ Please enter a scenario description to continue")` message. -/
inductive UiOutcome where
  | solved : Solution → UiOutcome
  | validationError : UiOutcome

/-- The dashboard's solve-button handler (app.py lines 544-548):
`if custom_scenario.strip(): process_scenario(custom_scenario) else:
st.error(...)` — the agent runs only when the stripped text is non-empty
(Python string truthiness); otherwise a validation error is shown and
nothing else happens. -/
def ui_solve_button (fp : String → String) (st : CacheState Solution)
    (text : String) (t_start t_end : ℚ) (o : ComputeOracle) :
    UiOutcome × CacheState Solution :=
  if pyStrip text ≠ "" then
    let r := solve_disruption fp st text t_start t_end o
    (UiOutcome.solved r.1, r.2)
  else
    (UiOutcome.validationError, st)

/-- A concrete oracle value (the base candidate of
`_generate_base_solution` with the fixed fallback reasoning). -/
def sampleOracle : ComputeOracle :=
  { opt_actions := [⟨"investigate", "Investigate the issue"⟩,
                    ⟨"notify", "Notify relevant parties"⟩,
                    ⟨"monitor", "Monitor the situation"⟩]
    opt_predicted_profit := 0
    opt_confidence := 7/10
    reasoning := "Solution optimized for maximum profit."
    interactive_options := []
    stamp := 0 }

end Synapse

namespace Synapse

/-- C1: the ROI percentage attached by the evaluator: when `total_cost > 0`
it is `(total_profit - total_cost) / max(total_cost, 1)` times 100, and when
`total_cost = 0` it is `total_profit` times 100. -/
theorem roi_percentage_formula (predicted_profit : ℚ) (actions : List Action)
    (affected : ℕ) (customer_ltv brand_impact : ℚ) :
    (0 < (calculate_roi predicted_profit actions affected customer_ltv brand_impact).total_cost →
      (calculate_roi predicted_profit actions affected customer_ltv brand_impact).roi_percentage =
        ((calculate_roi predicted_profit actions affected customer_ltv brand_impact).total_profit -
         (calculate_roi predicted_profit actions affected customer_ltv brand_impact).total_cost) /
        max (calculate_roi predicted_profit actions affected customer_ltv brand_impact).total_cost 1
          * 100) ∧
    ((calculate_roi predicted_profit actions affected customer_ltv brand_impact).total_cost = 0 →
      (calculate_roi predicted_profit actions affected customer_ltv brand_impact).roi_percentage =
        (calculate_roi predicted_profit actions affected customer_ltv brand_impact).total_profit
          * 100) := by
  dsimp only [calculate_roi]
  constructor
  · intro h
    rw [if_pos h]
  · intro h
    rw [h]
    simp

/-- C3 counterexample: the claim's formula `(base + Σ costs) × max(1, affectedUnits)`
does not match the code.  For a single `compensation` action (fee 15) and
2 affected units the code computes `10 + 15 × 2 = 40`, while the claim's
formula gives `(10 + 15) × 2 = 50`. -/
theorem operational_cost_claim_counterexample :
    calculate_operational_costs [⟨"compensation", "Offer generous compensation"⟩] 2 ≠
      (10 + specActionSum [⟨"compensation", "Offer generous compensation"⟩]) *
        ((max 1 2 : ℕ) : ℚ) := by
  norm_num [calculate_operational_costs, totalActionCost, specActionSum, actionCostTable]

/-- C3 (amended): the evaluator's operational cost equals the fixed base cost
plus the per-action-type cost sum multiplied by `max(1, scenario.affectedUnits)`
— only the action-cost sum is scaled, the base cost is not.  Action kinds
absent from the fixed cost table contribute zero to the sum. -/
theorem operational_cost_formula (actions : List Action) (affected : ℕ) :
    calculate_operational_costs actions affected =
      10 + specActionSum actions * ((max 1 affected : ℕ) : ℚ) := by
  simp [calculate_operational_costs, totalActionCost_eq_specActionSum]

/-- C4: on a non-empty candidate list the Selector returns a candidate at an
index `i` whose ROI percentage is maximal, and every candidate strictly
before index `i` has a strictly smaller ROI percentage — i.e. the first
candidate, in generation order, among those attaining the maximum. -/
theorem select_best_is_first_max (cs : List EvalCandidate) (h : cs ≠ []) :
    ∃ i, ∃ hi : i < cs.length,
      select_best_solution cs = SelectResult.selected (cs.get ⟨i, hi⟩) ∧
      (∀ j (hj : j < cs.length), roiKey (cs.get ⟨j, hj⟩) ≤ roiKey (cs.get ⟨i, hi⟩)) ∧
      (∀ j (hj : j < cs.length), j < i →
        roiKey (cs.get ⟨j, hj⟩) < roiKey (cs.get ⟨i, hi⟩)) := by
  obtain ⟨i, hi, heq, hmax, hstrict⟩ := firstMaxRoi_spec cs h
  refine ⟨i, hi, ?_, hmax, hstrict⟩
  have hne : cs.isEmpty = false := by
    cases cs with
    | nil => exact absurd rfl h
    | cons a l => rfl
  simp only [select_best_solution, hne, Bool.false_eq_true, if_false,
    sortRoiDesc_head, heq]

/-- C4 witness: on the spec's tie list (ROI percentages 12.0, 45.5, 45.5) the
Selector returns the earliest candidate among the tied maxima. -/
theorem select_best_tie_witness :
    ∃ i, ∃ hi : i < tieCandidates.length,
      select_best_solution tieCandidates =
        SelectResult.selected (tieCandidates.get ⟨i, hi⟩) ∧
      (∀ j (hj : j < tieCandidates.length),
        roiKey (tieCandidates.get ⟨j, hj⟩) ≤ roiKey (tieCandidates.get ⟨i, hi⟩)) ∧
      (∀ j (hj : j < tieCandidates.length), j < i →
        roiKey (tieCandidates.get ⟨j, hj⟩) < roiKey (tieCandidates.get ⟨i, hi⟩)) :=
  select_best_is_first_max tieCandidates (by simp [tieCandidates])

/-- C9 counterexample: on an empty candidate list `_select_best_solution`
does not fail fast — it silently returns the empty dict `\x7b\x7d`. -/
theorem select_best_nil_counterexample :
    select_best_solution [] = SelectResult.emptyDict := rfl

/-- C9 (amended): the Selector never raises; it returns the empty-dict
placeholder exactly when the candidate list is empty, silently substituting
`\x7b\x7d` for a candidate in that case. -/
theorem select_best_empty_iff (cs : List EvalCandidate) :
    select_best_solution cs = SelectResult.emptyDict ↔ cs = [] := by
  constructor
  · intro hsel
    by_contra hne
    obtain ⟨i, hi, heq, -, -⟩ := firstMaxRoi_spec cs hne
    have hb : cs.isEmpty = false := by
      cases cs with
      | nil => exact absurd rfl hne
      | cons a l => rfl
    simp only [select_best_solution, hb, Bool.false_eq_true, if_false,
      sortRoiDesc_head, heq] at hsel
    exact SelectResult.noConfusion hsel
  · intro h
    subst h
    rfl

/-- C6: after `set(k, v, ttl)` with a positive TTL, a `get(k)` issued after
the expiry instant has passed returns absent, removes the entry, and bumps
the `misses` counter by exactly one relative to its value just before the
`get`. -/
theorem get_after_expiry (α : Type) (st : CacheState α) (k : String) (v : α)
    (ttl : ℤ) (t0 now : ℚ) (httl : 0 < ttl) (hlate : t0 + (ttl : ℚ) < now) :
    (cacheGet k now (cacheSet k v ttl t0 st)).1 = none ∧
    (cacheGet k now (cacheSet k v ttl t0 st)).2.store k = none ∧
    (cacheGet k now (cacheSet k v ttl t0 st)).2.misses =
      (cacheSet k v ttl t0 st).misses + 1 := by
  have hstore : (cacheSet k v ttl t0 st).store k =
      some ⟨v, some (t0 + (ttl : ℚ)), t0⟩ := by
    simp [cacheSet, httl]
  have hexp : is_expired (cacheSet k v ttl t0 st) k now = true := by
    simp [is_expired, hstore, hlate]
  refine ⟨?_, ?_, ?_⟩ <;>
    simp [cacheGet, hstore, hexp, cacheDelete]

/-- C6 witness: `set("k", 5, ttl=1)` at time 0, then `get("k")` at time 1.2:
absent, entry gone, misses bumped from 0 to 1. -/
theorem get_after_expiry_witness :
    (cacheGet "k" (6/5) (cacheSet "k" (5 : ℕ) 1 0 (emptyCache ℕ))).1 = none ∧
    (cacheGet "k" (6/5) (cacheSet "k" (5 : ℕ) 1 0 (emptyCache ℕ))).2.store "k" = none ∧
    (cacheGet "k" (6/5) (cacheSet "k" (5 : ℕ) 1 0 (emptyCache ℕ))).2.misses =
      (cacheSet "k" (5 : ℕ) 1 0 (emptyCache ℕ)).misses + 1 :=
  get_after_expiry ℕ (emptyCache ℕ) "k" 5 1 0 (6/5) (by decide) (by norm_num)

/-- A concrete cache state holding key `"k"` with an already-passed expiry
instant 1, not yet observed by any cleanup-triggering operation. -/
def staleCache : CacheState ℕ :=
  { store := fun q => if q = "k" then some ⟨5, some 1, 0⟩ else none,
    hits := 0, misses := 0, sets := 1, deletes := 0 }

/-- C10: `ttl(key)` on a key whose expiry instant has passed returns 0 (the
remaining time clamped to be non-negative) and leaves the state untouched:
no eviction of the stale entry and no statistics change. -/
theorem ttl_of_expired_key (α : Type) (st : CacheState α) (k : String)
    (e : CacheEntry α) (t now : ℚ) (hk : st.store k = some e)
    (hexp : e.expiry = some t) (hpast : t < now) :
    cacheTtl k now st = (0, st) := by
  have hfloor : (0 : ℤ) ≤ ⌊-(t - now)⌋ := Int.floor_nonneg.mpr (by linarith)
  have hle : pyInt (t - now) ≤ 0 := by
    have h0 : t - now < 0 := by linarith
    rw [pyInt, if_pos h0]
    omega
  simp only [cacheTtl, hk, hexp]
  rw [max_eq_left hle]

/-- C10 witness: on `staleCache` (expiry 1) at time 2, `ttl("k")` returns 0
and the state — entry and counters — is unchanged. -/
theorem ttl_of_expired_key_witness :
    cacheTtl "k" 2 staleCache = (0, staleCache) :=
  ttl_of_expired_key ℕ staleCache "k" ⟨5, some 1, 0⟩ 1 2 (by simp [staleCache])
    rfl (by norm_num)

/-- C7: classification checks the keyword categories in the fixed priority
order traffic, customer, driver, environmental; the first matching category
wins and a text matching none classifies as `general_disruption`.  In
particular a text with both a traffic and a customer keyword is
`traffic_disruption` (first conjunct). -/
theorem classify_priority_order (text : String) :
    (mentionsAny ["traffic", "accident", "jam", "road"] text = true →
      classify_scenario text = "traffic_disruption") ∧
    (mentionsAny ["traffic", "accident", "jam", "road"] text = false →
      mentionsAny ["complaint", "angry", "cold", "food"] text = true →
      classify_scenario text = "customer_issue") ∧
    (mentionsAny ["traffic", "accident", "jam", "road"] text = false →
      mentionsAny ["complaint", "angry", "cold", "food"] text = false →
      mentionsAny ["driver", "voice", "stress"] text = true →
      classify_scenario text = "driver_wellbeing") ∧
    (mentionsAny ["traffic", "accident", "jam", "road"] text = false →
      mentionsAny ["complaint", "angry", "cold", "food"] text = false →
      mentionsAny ["driver", "voice", "stress"] text = false →
      mentionsAny ["weather", "rain", "storm"] text = true →
      classify_scenario text = "environmental") ∧
    (mentionsAny ["traffic", "accident", "jam", "road"] text = false →
      mentionsAny ["complaint", "angry", "cold", "food"] text = false →
      mentionsAny ["driver", "voice", "stress"] text = false →
      mentionsAny ["weather", "rain", "storm"] text = false →
      classify_scenario text = "general_disruption") := by
  refine ⟨?_, ?_, ?_, ?_, ?_⟩ <;>
    · intros
      simp only [mentionsAny] at *
      simp [classify_scenario, *]

/-- C8 counterexample: a text whose first explicit integer literal is `0`
yields `affected_deliveries = 0`, which is not a positive integer.  (The
`randint` argument is irrelevant on this path.) -/
theorem affected_units_positive_counterexample :
    ¬ 0 < estimate_affected_deliveries "0 deliveries affected" (fun lo _ => lo) := by
  decide

/-- C8 (amended): when the text contains an explicit integer literal,
`affected_deliveries` equals the first such literal (and so can be 0);
when it contains none, `affected_deliveries` is positive, for every draw
function respecting the `[lo, hi)` ranges of `np.random.randint`. -/
theorem affected_units_spec (text : String) (randint : ℕ → ℕ → ℕ)
    (hr : ∀ lo hi, lo < hi → lo ≤ randint lo hi ∧ randint lo hi < hi) :
    (∀ n, firstIntLit text = some n →
      estimate_affected_deliveries text randint = n) ∧
    (firstIntLit text = none →
      0 < estimate_affected_deliveries text randint) := by
  constructor
  · intro n hn
    simp [estimate_affected_deliveries, hn]
  · intro hn
    simp only [estimate_affected_deliveries, hn]
    split_ifs with h1 h2
    · have := (hr 3 8 (by norm_num)).1
      omega
    · norm_num
    · have := (hr 1 4 (by norm_num)).1
      omega

/-- C8 witness: a literal-free text gets a positive estimate (here with the
draw that always returns the low end of the requested range). -/
theorem affected_units_spec_witness :
    (∀ n, firstIntLit "Customer angry about cold food" = some n →
      estimate_affected_deliveries "Customer angry about cold food"
        (fun lo _ => lo) = n) ∧
    (firstIntLit "Customer angry about cold food" = none →
      0 < estimate_affected_deliveries "Customer angry about cold food"
        (fun lo _ => lo)) :=
  affected_units_spec "Customer angry about cold food" (fun lo _ => lo)
    (fun lo _ h => ⟨le_refl lo, h⟩)

/-- C2: a fixed scenario text resolved twice, the second probe within the
1-hour TTL of the first call's store (and nothing touching the cache in
between): the second call returns `cache_hit = true` with the same
`predicted_profit` and `actions` as the first call's result — for every
fingerprint function, every pair of oracle draws and every timing. -/
theorem cache_idempotence (fp : String → String) (st0 : CacheState Solution)
    (text : String) (t1 t1e t2 t2e : ℚ) (o1 o2 : ComputeOracle)
    (hmiss : st0.store ("scenario_" ++ fp text) = none)
    (httl : t2 ≤ t1e + 3600) :
    (solve_disruption fp (solve_disruption fp st0 text t1 t1e o1).2
        text t2 t2e o2).1.cache_hit = true ∧
    (solve_disruption fp (solve_disruption fp st0 text t1 t1e o1).2
        text t2 t2e o2).1.predicted_profit =
      (solve_disruption fp st0 text t1 t1e o1).1.predicted_profit ∧
    (solve_disruption fp (solve_disruption fp st0 text t1 t1e o1).2
        text t2 t2e o2).1.actions =
      (solve_disruption fp st0 text t1 t1e o1).1.actions := by
  have hno : ¬ (t1e + 3600 < t2) := not_lt.mpr httl
  refine ⟨?_, ?_, ?_⟩ <;>
    simp [solve_disruption, cacheGet, cacheSet, is_expired, cacheDelete,
      execute_with_reasoning, hmiss, hno]

/-- C2 witness: the end-to-end scenario text resolved at times 0 and 1 on a
fresh cache: the second call is a hit returning the first call's profit and
actions. -/
theorem cache_idempotence_witness :
    (solve_disruption (fun _ => "abc12345")
        (solve_disruption (fun _ => "abc12345") (emptyCache Solution)
          "Major accident on Highway 1" 0 0 sampleOracle).2
        "Major accident on Highway 1" 1 1 sampleOracle).1.cache_hit = true ∧
    (solve_disruption (fun _ => "abc12345")
        (solve_disruption (fun _ => "abc12345") (emptyCache Solution)
          "Major accident on Highway 1" 0 0 sampleOracle).2
        "Major accident on Highway 1" 1 1 sampleOracle).1.predicted_profit =
      (solve_disruption (fun _ => "abc12345") (emptyCache Solution)
          "Major accident on Highway 1" 0 0 sampleOracle).1.predicted_profit ∧
    (solve_disruption (fun _ => "abc12345")
        (solve_disruption (fun _ => "abc12345") (emptyCache Solution)
          "Major accident on Highway 1" 0 0 sampleOracle).2
        "Major accident on Highway 1" 1 1 sampleOracle).1.actions =
      (solve_disruption (fun _ => "abc12345") (emptyCache Solution)
          "Major accident on Highway 1" 0 0 sampleOracle).1.actions :=
  cache_idempotence (fun _ => "abc12345") (emptyCache Solution)
    "Major accident on Highway 1" 0 0 1 1 sampleOracle sampleOracle rfl
    (by norm_num)

/-- C5 counterexample: `solve_disruption("")` does not reject the empty
text: it runs the pipeline, returns an ordinary Solution (a fresh
computation, `cache_hit = false`) and stores an entry in the cache under
the empty text's scenario key. -/
theorem empty_input_counterexample :
    (solve_disruption (fun _ => "d41d8cd9") (emptyCache Solution)
        "" 0 0 sampleOracle).2.store "scenario_d41d8cd9" ≠ none ∧
    (solve_disruption (fun _ => "d41d8cd9") (emptyCache Solution)
        "" 0 0 sampleOracle).1.cache_hit = false := by
  constructor
  · simp [solve_disruption, cacheGet, cacheSet, emptyCache,
      execute_with_reasoning]
  · rfl

/-- C5 (amended): rejection of empty/whitespace-only input happens only in
the dashboard layer: the solve-button handler refuses to invoke the agent
and surfaces a validation error, leaving the cache state untouched, whenever
the stripped text is empty.  `solve_disruption` itself performs no input
validation (see the counterexample). -/
theorem ui_rejects_blank_input (fp : String → String)
    (st : CacheState Solution) (text : String) (t_start t_end : ℚ)
    (o : ComputeOracle) (h : pyStrip text = "") :
    ui_solve_button fp st text t_start t_end o =
      (UiOutcome.validationError, st) := by
  simp [ui_solve_button, h]

/-- C5 witness: a whitespace-only input is rejected by the dashboard with
the cache left untouched. -/
theorem ui_rejects_blank_input_witness :
    ui_solve_button (fun _ => "x") (emptyCache Solution) "   " 0 0
        sampleOracle =
      (UiOutcome.validationError, emptyCache Solution) :=
  ui_rejects_blank_input (fun _ => "x") (emptyCache Solution) "   " 0 0
    sampleOracle (by decide)

end Synapse
